import Mathlib

/-
  Verification development for the Ada autonomous coding-agent repository.

  Data shapes (LogEntry, Job, StoryPayload, ExecutionRequest, the status enum)
  and the UI behaviour (polling guards, SSE log-append handler, log terminal
  rendering, execution form submission) are embedded from the TypeScript
  sources. The isolation/execution engine (retry pipeline, sandbox containment,
  workspace lifecycle, job admission) ships no source in this snapshot, so those
  operations are modelled from the specification text, as marked on each
  definition.
-/

namespace Ada

/-- Log severity tag, from the TypeScript union type in the shared type
declarations (level field of LogEntry). -/
inductive LogLevel where
  | info
  | thought
  | tool
  | tool_result
  | success
  | error
  | warning
deriving DecidableEq, Repr

/-- Structured metadata carried by some log entries (success flag, invoked
arguments, byte length of the output), as consumed by the log terminal. -/
structure LogMetadata where
  success : Option Bool := none
  args : Option String := none
  output_len : Option Nat := none
deriving DecidableEq, Repr

/-- A log entry, from the TypeScript LogEntry interface: timestamp, optional
level, optional source tag (the field spelled p-r-e-f-i-x in the source, renamed
here because that spelling is a Lean keyword), message, optional metadata. -/
structure LogEntry where
  timestamp : String
  level : Option LogLevel := none
  sourceTag : Option String := none
  message : String
  metadata : Option LogMetadata := none
deriving DecidableEq, Repr

/-- Job status, from the TypeScript union
PENDING | RUNNING | SUCCESS | FAILED | QUEUED. -/
inductive JobStatus where
  | PENDING
  | RUNNING
  | SUCCESS
  | FAILED
  | QUEUED
deriving DecidableEq, Repr

/-- The five status values declared by the source union type. -/
def allJobStatuses : List JobStatus :=
  [JobStatus.PENDING, JobStatus.RUNNING, JobStatus.SUCCESS,
   JobStatus.FAILED, JobStatus.QUEUED]

/-- A job record, from the TypeScript Job interface. -/
structure Job where
  job_id : String
  repo_url : String
  status : JobStatus
  logs : List LogEntry
  created_at : String
deriving DecidableEq, Repr

/-- A story payload, from the TypeScript StoryPayload interface. -/
structure StoryPayload where
  title : String
  story_id : String
  description : Option String := none
  acceptance_criteria : List String
deriving DecidableEq, Repr

/-- An execution request, from the TypeScript ExecutionRequest interface:
repo_url, stories, optional base_branch, optional use_mock. -/
structure ExecutionRequest where
  repo_url : String
  stories : List StoryPayload
  base_branch : Option String := none
  use_mock : Option Bool := none
deriving DecidableEq, Repr

/-- The terminal-status test used throughout the UI source, literally the check
that the status string is a member of the array holding SUCCESS and FAILED. -/
def isTerminalStatus : JobStatus → Bool
  | JobStatus.SUCCESS => true
  | JobStatus.FAILED => true
  | _ => false

/-- Return value of fetchJobStatus in the Home page: false when the fetch
failed, false when the fetched status is terminal, true otherwise; the caller
clears its polling interval exactly when this is false. -/
def fetchShouldContinue (fetchOk : Bool) (s : JobStatus) : Bool :=
  if fetchOk then !(isTerminalStatus s) else false

/-- Whether the status-polling effect in the Home page schedules its interval:
it returns early when there is no active job or the active status is terminal,
and otherwise sets the interval. -/
def pollEffectActive : Option Job → Bool
  | none => false
  | some j => !(isTerminalStatus j.status)

/-- Whether the SSE effect in the Home page opens an event-stream connection:
it returns early when the optional chain on the job id is falsy (no active job,
or an empty job id string) or when the active status is terminal. -/
def sseEffectOpens : Option Job → Bool
  | none => false
  | some j => if j.job_id = "" then false else !(isTerminalStatus j.status)

/-- The duplicate test inside the SSE onmessage handler: an existing entry
counts as a duplicate of the incoming one when both the timestamp and the
message coincide. -/
def logDuplicates (incoming : LogEntry) (l : LogEntry) : Bool :=
  l.timestamp == incoming.timestamp && l.message == incoming.message

/-- The SSE onmessage handler state update on the log list: if some existing
entry has the same timestamp and message the list is returned unchanged,
otherwise the new entry is appended at the end. -/
def onStreamMessage (logs : List LogEntry) (newLog : LogEntry) : List LogEntry :=
  if logs.any (logDuplicates newLog) then logs else logs ++ [newLog]

/-- One rendered line of the log terminal: the entry together with the isLast
flag the component computes from the index. -/
structure RenderedLine where
  entry : LogEntry
  isLast : Bool
deriving DecidableEq, Repr

/-- The log terminal maps over the log list in index order, passing each entry
and whether its index is the final index. -/
def renderTerminal (logs : List LogEntry) : List RenderedLine :=
  logs.enum.map (fun p => { entry := p.2, isLast := p.1 == logs.length - 1 })

/-- The execution form submit handler: a no-op unless both the repository URL
and the title are non-empty (truthy); otherwise it dispatches one story whose
acceptance criteria are the entered rows filtered to those with non-empty
trimmed value, in entry order. The random story id is a parameter here. -/
def handleSubmit (storyId repoUrl title description : String)
    (criteria : List String) (useMock : Bool) : Option ExecutionRequest :=
  if repoUrl = "" || title = "" then none
  else some
    { repo_url := repoUrl
    , stories :=
        [{ title := title
         , story_id := storyId
         , description := some description
         , acceptance_criteria := criteria.filter (fun c => c.trim != "") }]
    , base_branch := none
    , use_mock := some useMock }

/-- Modelled from the spec: the backend status mutator (worker plus registry
setStatus) ships no source in this snapshot; the spec states the transition
diagram PENDING or QUEUED to RUNNING, then RUNNING to SUCCESS or FAILED, with
no transition out of a terminal state. -/
def statusStep : JobStatus → JobStatus → Bool
  | JobStatus.PENDING, JobStatus.RUNNING => true
  | JobStatus.QUEUED, JobStatus.RUNNING => true
  | JobStatus.RUNNING, JobStatus.SUCCESS => true
  | JobStatus.RUNNING, JobStatus.FAILED => true
  | _, _ => false

/-- Progress measure for status transitions: admission states sit at 0, the
running state at 1, terminal states at 2. -/
def statusRank : JobStatus → Nat
  | JobStatus.PENDING => 0
  | JobStatus.QUEUED => 0
  | JobStatus.RUNNING => 1
  | JobStatus.SUCCESS => 2
  | JobStatus.FAILED => 2

/-- Result reported by one producer (coding-agent) invocation: it either
produced an edit pass or reported a fatal, non-retryable failure. -/
inductive ProducerReport where
  | success
  | fatal
deriving DecidableEq, Repr

/-- Verdict returned by one validator (validation-agent) invocation. -/
inductive ValidatorVerdict where
  | pass
  | fail
deriving DecidableEq, Repr

/-- Terminal outcome of one pipeline run over a single task. -/
inductive PipelineOutcome where
  | terminalSuccess
  | terminalFail
deriving DecidableEq, Repr

/-- Modelled from the spec: the configured maximum number of producer and
validator iterations per task defaults to 25 (the validation agent feeds back
to the coding agent for up to 25 retry cycles). -/
def defaultMaxRetries : Nat := 25

/-- Modelled from the spec: the body of the bounded retry loop of the
execution pipeline, whose source is not in this snapshot. The fuel argument is
the remaining iteration budget and the second component counts producer
invocations so far. Each iteration invokes the producer once; a fatal producer
report aborts with Terminal-Fail, a validator PASS yields Terminal-Success, a
validator FAIL consumes one unit of budget; an exhausted budget yields
Terminal-Fail. -/
def retryLoopGo (producer : Nat → ProducerReport) (validator : Nat → ValidatorVerdict) :
    Nat → Nat → PipelineOutcome × Nat
  | 0, calls => (PipelineOutcome.terminalFail, calls)
  | fuel + 1, calls =>
    match producer calls with
    | ProducerReport.fatal => (PipelineOutcome.terminalFail, calls + 1)
    | ProducerReport.success =>
      match validator calls with
      | ValidatorVerdict.pass => (PipelineOutcome.terminalSuccess, calls + 1)
      | ValidatorVerdict.fail => retryLoopGo producer validator fuel (calls + 1)

/-- Modelled from the spec: the bounded retry loop of the execution pipeline,
started with the configured maximum as budget and zero producer invocations. -/
def retryLoop (maxIter : Nat) (producer : Nat → ProducerReport)
    (validator : Nat → ValidatorVerdict) : PipelineOutcome × Nat :=
  retryLoopGo producer validator maxIter 0

/-- Events observable in one pipeline run, used to audit the lifecycle of the
execution environment. -/
inductive PipeEvent where
  | setupEv
  | produceEv (i : Nat)
  | validateEv (i : Nat)
  | teardownEv
deriving DecidableEq, Repr

/-- Modelled from the spec: the event trace of the retry iterations between
setup and teardown, mirroring retryLoopGo. -/
def loopTrace (producer : Nat → ProducerReport) (validator : Nat → ValidatorVerdict) :
    Nat → Nat → List PipeEvent
  | 0, _ => []
  | fuel + 1, i =>
    match producer i with
    | ProducerReport.fatal => [PipeEvent.produceEv i]
    | ProducerReport.success =>
      match validator i with
      | ValidatorVerdict.pass => [PipeEvent.produceEv i, PipeEvent.validateEv i]
      | ValidatorVerdict.fail =>
        PipeEvent.produceEv i :: PipeEvent.validateEv i :: loopTrace producer validator fuel (i + 1)

/-- Modelled from the spec: one pipeline run over a single task. Setup is
attempted once on entry; when it succeeds the same environment is used by every
retry iteration and teardown is bound to every exit path (success, exhaustion,
fatal producer report); when setup fails the run is Terminal-Fail and teardown
is still invoked as best-effort cleanup, which must be safe after a failed
setup. -/
def runPipeline (maxIter : Nat) (setupOk : Bool) (producer : Nat → ProducerReport)
    (validator : Nat → ValidatorVerdict) : PipelineOutcome × List PipeEvent :=
  if setupOk then
    ((retryLoop maxIter producer validator).1,
      PipeEvent.setupEv :: (loopTrace producer validator maxIter 0 ++ [PipeEvent.teardownEv]))
  else
    (PipelineOutcome.terminalFail, [PipeEvent.setupEv, PipeEvent.teardownEv])

/-- Paths are canonical segment lists; a filesystem is a finite association of
canonical paths to file contents. -/
abbrev FileSys := List (List String × String)

/-- Modelled from the spec: canonicalization of a caller-supplied relative path
against an environment root, resolving parent and current-directory segments
before any prefix check. -/
def resolveSegs (root : List String) (segs : List String) : List String :=
  segs.foldl
    (fun acc s =>
      if s = ".." then acc.dropLast
      else if s = "." || s = "" then acc
      else acc ++ [s])
    root

/-- Modelled from the spec: the containment check, a prefix test on the
canonicalized resolved path against the environment root. -/
def containedIn (root resolved : List String) : Bool :=
  resolved.take root.length == root

/-- Errors raised by the sandboxed file operations. -/
inductive FsError where
  | containmentViolation
  | notFound
deriving DecidableEq, Repr

/-- Replace or create the entry at a canonical path. -/
def setEntry (fs : FileSys) (p : List String) (content : String) : FileSys :=
  (fs.filter (fun kv => kv.1 != p)) ++ [(p, content)]

/-- Look up the content stored at a canonical path. -/
def lookupEntry (fs : FileSys) (p : List String) : Option String :=
  (fs.find? (fun kv => kv.1 == p)).map Prod.snd

/-- Modelled from the spec: readFile canonicalizes the supplied path against
the environment root and prefix-checks it before touching the filesystem; an
escaping path fails with ContainmentViolation and the filesystem state is
returned untouched. -/
def readFile (root : List String) (p : List String) (fs : FileSys) :
    Except FsError String × FileSys :=
  let r := resolveSegs root p
  if containedIn root r then
    match lookupEntry fs r with
    | some c => (Except.ok c, fs)
    | none => (Except.error FsError.notFound, fs)
  else (Except.error FsError.containmentViolation, fs)

/-- Modelled from the spec: writeFile with the same canonicalize-then-check
containment discipline; an escaping path performs no mutation. -/
def writeFile (root : List String) (p : List String) (content : String) (fs : FileSys) :
    Except FsError Unit × FileSys :=
  let r := resolveSegs root p
  if containedIn root r then (Except.ok (), setEntry fs r content)
  else (Except.error FsError.containmentViolation, fs)

/-- Modelled from the spec: deleteFile with the same canonicalize-then-check
containment discipline; an escaping path performs no mutation. -/
def deleteFile (root : List String) (p : List String) (fs : FileSys) :
    Except FsError Unit × FileSys :=
  let r := resolveSegs root p
  if containedIn root r then (Except.ok (), fs.filter (fun kv => kv.1 != r))
  else (Except.error FsError.containmentViolation, fs)

/-- Modelled from the spec: listFiles with the same canonicalize-then-check
containment discipline; an escaping directory performs no mutation. -/
def listFiles (root : List String) (d : List String) (fs : FileSys) :
    Except FsError (List (List String)) × FileSys :=
  let r := resolveSegs root d
  if containedIn root r then
    (Except.ok ((fs.filter (fun kv => kv.1.take r.length == r)).map Prod.fst), fs)
  else (Except.error FsError.containmentViolation, fs)

/-- Modelled from the spec: teardown of an environment recursively deletes the
directory rooted at the environment path; it is a total function (best-effort
cleanup, never throwing on already-absent resources). -/
def teardownEnv (envRoot : List String) (fs : FileSys) : FileSys :=
  fs.filter (fun kv => !(kv.1.take envRoot.length == envRoot))

/-- Modelled from the spec: the log line recorded when the top-level workspace
is preserved after a story failure, naming the preserved path. -/
def preserveMessage (wsRoot : List String) : String :=
  "Workspace preserved for debugging: " ++ String.intercalate "/" wsRoot

/-- Modelled from the spec: closeWorkspace for a job. When every story
succeeded, or when the force-clean directive is set, the top-level working copy
is deleted; otherwise it is preserved and its path is recorded in the job log. -/
def closeWorkspace (allStoriesSucceeded forceClean : Bool) (wsRoot : List String)
    (fs : FileSys) (log : List String) : FileSys × List String :=
  if allStoriesSucceeded || forceClean then (teardownEnv wsRoot fs, log)
  else (fs, log ++ [preserveMessage wsRoot])

/-- A job descriptor returned by admission: the assigned job id and the initial
status a client can poll immediately. -/
structure JobDescriptor where
  job_id : Nat
  status : JobStatus
deriving DecidableEq, Repr

/-- Modelled from the spec: the job admission handler, whose backend source is
not in this snapshot. It accepts an ExecutionRequest and returns one descriptor
per submitted story, assigning each a fresh job id and the initial status
PENDING before enqueue. -/
def admission (nextId : Nat) (req : ExecutionRequest) : List JobDescriptor :=
  (List.range req.stories.length).map
    (fun i => { job_id := nextId + i, status := JobStatus.PENDING })

/-- Number of occurrences of one event in a trace. -/
def countEvent (e : PipeEvent) : List PipeEvent → Nat
  | [] => 0
  | x :: xs => (if x = e then 1 else 0) + countEvent e xs

/-- Helper: the second components of an enumerated list are the list itself. -/
theorem enumFrom_map_snd {α : Type} (n : Nat) (l : List α) :
    (List.enumFrom n l).map Prod.snd = l := by
  induction l generalizing n with
  | nil => rfl
  | cons x xs ih => simp [List.enumFrom, ih]

/-- Helper: the producer-invocation counter of the retry loop body grows by at
most the remaining budget. -/
theorem retryLoopGo_calls_le (producer : Nat → ProducerReport)
    (validator : Nat → ValidatorVerdict) :
    ∀ fuel calls, (retryLoopGo producer validator fuel calls).2 ≤ calls + fuel := by
  intro fuel
  induction fuel with
  | zero => intro calls; simp [retryLoopGo]
  | succ n ih =>
    intro calls
    cases hp : producer calls with
    | fatal => simp [retryLoopGo, hp]
    | success =>
      cases hv : validator calls with
      | pass => simp [retryLoopGo, hp, hv]
      | fail =>
        have h := ih (calls + 1)
        simp only [retryLoopGo, hp, hv]
        omega

/-- Helper: with a producer that keeps producing and a validator that fails
every iteration, the loop body consumes its whole budget and ends in
Terminal-Fail. -/
theorem retryLoopGo_all_fail (producer : Nat → ProducerReport)
    (validator : Nat → ValidatorVerdict)
    (hp : ∀ i, producer i = ProducerReport.success)
    (hv : ∀ i, validator i = ValidatorVerdict.fail) :
    ∀ fuel calls, retryLoopGo producer validator fuel calls
      = (PipelineOutcome.terminalFail, calls + fuel) := by
  intro fuel
  induction fuel with
  | zero => intro calls; simp [retryLoopGo]
  | succ n ih =>
    intro calls
    simp only [retryLoopGo, hp calls, hv calls, ih (calls + 1)]
    congr 1
    omega

/-- Helper: countEvent distributes over append. -/
theorem countEvent_append (e : PipeEvent) (a b : List PipeEvent) :
    countEvent e (a ++ b) = countEvent e a + countEvent e b := by
  induction a with
  | nil => simp [countEvent]
  | cons x xs ih => simp [countEvent, ih]; omega

/-- Helper: the iteration trace contains no setup and no teardown events. -/
theorem loopTrace_no_lifecycle (producer : Nat → ProducerReport)
    (validator : Nat → ValidatorVerdict) :
    ∀ fuel i, countEvent PipeEvent.setupEv (loopTrace producer validator fuel i) = 0
      ∧ countEvent PipeEvent.teardownEv (loopTrace producer validator fuel i) = 0 := by
  intro fuel
  induction fuel with
  | zero => intro i; simp [loopTrace, countEvent]
  | succ n ih =>
    intro i
    cases hp : producer i with
    | fatal => simp [loopTrace, hp, countEvent]
    | success =>
      cases hv : validator i with
      | pass => simp [loopTrace, hp, hv, countEvent]
      | fail =>
        have h := ih (i + 1)
        simp [loopTrace, hp, hv, countEvent, h.1, h.2]

/-- C1: the retry loop of the execution pipeline never invokes the producer
more than the configured maximum number of times; the configured default
maximum is 25; and with a producer that keeps producing and a validator that
returns FAIL on every iteration, the loop ends in Terminal-Fail after exactly
the maximum number of producer invocations, not fewer or more. -/
theorem retry_budget_bounded_and_exact (maxIter : Nat)
    (producer : Nat → ProducerReport) (validator : Nat → ValidatorVerdict) :
    (retryLoop maxIter producer validator).2 ≤ maxIter
    ∧ defaultMaxRetries = 25
    ∧ ((∀ i, producer i = ProducerReport.success) →
        (∀ i, validator i = ValidatorVerdict.fail) →
        retryLoop maxIter producer validator
          = (PipelineOutcome.terminalFail, maxIter)) := by
  refine ⟨?_, rfl, ?_⟩
  · have h := retryLoopGo_calls_le producer validator maxIter 0
    simpa [retryLoop] using h
  · intro hp hv
    have h := retryLoopGo_all_fail producer validator hp hv maxIter 0
    simpa [retryLoop] using h

/-- Witness for the retry-budget theorem at the default maximum of 25, with an
always-producing producer and an always-failing validator. -/
theorem retry_budget_bounded_and_exact_witness :
    retryLoop 25 (fun _ => ProducerReport.success) (fun _ => ValidatorVerdict.fail)
      = (PipelineOutcome.terminalFail, 25) :=
  (retry_budget_bounded_and_exact 25 (fun _ => ProducerReport.success)
    (fun _ => ValidatorVerdict.fail)).2.2 (fun _ => rfl) (fun _ => rfl)

/-- C3: in every pipeline run — setup succeeded or failed, and whatever the
producer and validator do (success, retry exhaustion, fatal abort) — the run
trace holds exactly one teardown event for exactly one setup event; and
teardown of an environment is idempotent and total, so it is safe to repeat
after a failed setup or mid-execution abort. -/
theorem teardown_once_per_setup (maxIter : Nat) (setupOk : Bool)
    (producer : Nat → ProducerReport) (validator : Nat → ValidatorVerdict)
    (envRoot : List String) (fs : FileSys) :
    countEvent PipeEvent.teardownEv (runPipeline maxIter setupOk producer validator).2 = 1
    ∧ countEvent PipeEvent.setupEv (runPipeline maxIter setupOk producer validator).2 = 1
    ∧ teardownEnv envRoot (teardownEnv envRoot fs) = teardownEnv envRoot fs := by
  have htrace := loopTrace_no_lifecycle producer validator maxIter 0
  refine ⟨?_, ?_, ?_⟩
  · cases setupOk <;>
      simp [runPipeline, countEvent, countEvent_append, htrace.1, htrace.2]
  · cases setupOk <;>
      simp [runPipeline, countEvent, countEvent_append, htrace.1, htrace.2]
  · induction fs with
    | nil => rfl
    | cons kv rest ih =>
      by_cases h : kv.1.take envRoot.length = envRoot
      · simp [teardownEnv, h]
      · simp [teardownEnv, h]

/-- C2: every sandboxed file operation first canonicalizes the caller path
against the environment root and prefix-checks the resolved path; when the
resolution falls outside the root the operation fails with
ContainmentViolation and leaves the filesystem untouched, and the decision
depends only on the resolved path, never on the raw caller input. -/
theorem containment_enforced (root p : List String) (content : String) (fs : FileSys)
    (h : containedIn root (resolveSegs root p) = false) :
    readFile root p fs = (Except.error FsError.containmentViolation, fs)
    ∧ writeFile root p content fs = (Except.error FsError.containmentViolation, fs)
    ∧ deleteFile root p fs = (Except.error FsError.containmentViolation, fs)
    ∧ listFiles root p fs = (Except.error FsError.containmentViolation, fs)
    ∧ (∀ q, resolveSegs root q = resolveSegs root p →
        writeFile root q content fs = writeFile root p content fs) := by
  refine ⟨?_, ?_, ?_, ?_, fun q hq => ?_⟩
  · simp [readFile, h]
  · simp [writeFile, h]
  · simp [deleteFile, h]
  · simp [listFiles, h]
  · simp [writeFile, hq]

/-- Witness for the containment theorem: a parent-directory traversal out of
the environment root is rejected by read and by write, with the filesystem
returned unchanged. -/
theorem containment_enforced_witness :
    readFile ["root"] ["..", "secret"] [] = (Except.error FsError.containmentViolation, [])
    ∧ writeFile ["root"] ["..", "secret"] "x" []
        = (Except.error FsError.containmentViolation, []) :=
  ⟨(containment_enforced ["root"] ["..", "secret"] "x" [] (by decide)).1,
   (containment_enforced ["root"] ["..", "secret"] "x" [] (by decide)).2.1⟩

/-- Helper: teardown of an environment leaves no entry under the environment
root. -/
theorem teardownEnv_clears (envRoot : List String) (fs : FileSys) :
    ∀ kv ∈ teardownEnv envRoot fs, kv.1.take envRoot.length ≠ envRoot := by
  intro kv hkv
  simp [teardownEnv, List.mem_filter] at hkv
  exact hkv.2

/-- C4: closing the workspace after a fully successful job deletes the
top-level working copy; after any story failure it preserves the working copy
unchanged and records its path in the job log; the force-clean directive makes
the close delete the working copy even on failure. -/
theorem closeWorkspace_policy (wsRoot : List String) (fs : FileSys)
    (log : List String) (forceClean : Bool) :
    (∀ kv ∈ (closeWorkspace true forceClean wsRoot fs log).1,
        kv.1.take wsRoot.length ≠ wsRoot)
    ∧ (closeWorkspace true forceClean wsRoot fs log).2 = log
    ∧ (closeWorkspace false false wsRoot fs log).1 = fs
    ∧ (closeWorkspace false false wsRoot fs log).2 = log ++ [preserveMessage wsRoot]
    ∧ (∀ kv ∈ (closeWorkspace false true wsRoot fs log).1,
        kv.1.take wsRoot.length ≠ wsRoot) := by
  refine ⟨?_, rfl, rfl, rfl, ?_⟩
  · exact teardownEnv_clears wsRoot fs
  · exact teardownEnv_clears wsRoot fs

/-- Witness for the workspace-close theorem: on failure without force-clean the
filesystem is preserved, and a concrete entry outside the root survives a
forced clean, its path not under the workspace root. -/
theorem closeWorkspace_policy_witness :
    (closeWorkspace false false ["w"] [(["w", "a"], "x")] []).1 = [(["w", "a"], "x")]
    ∧ (["o"] : List String).take 1 ≠ ["w"] :=
  ⟨(closeWorkspace_policy ["w"] [(["w", "a"], "x")] [] false).2.2.1,
   (closeWorkspace_policy ["w"] [(["o"], "y")] [] true).1 (["o"], "y") (by decide)⟩

/-- C5: the job status only takes the five declared values; every allowed
transition strictly increases the progress rank, so status moves monotonically
from PENDING or QUEUED through RUNNING to SUCCESS or FAILED; and no transition
leaves a terminal state. -/
theorem job_status_monotone :
    (∀ s t, statusStep s t = true → statusRank s < statusRank t)
    ∧ (∀ s t, isTerminalStatus s = true → statusStep s t = false)
    ∧ (∀ s : JobStatus, s ∈ allJobStatuses) := by
  refine ⟨?_, ?_, ?_⟩
  · intro s t h
    cases s <;> cases t <;> simp_all [statusStep, statusRank]
  · intro s t h
    cases s <;> cases t <;> simp_all [statusStep, isTerminalStatus]
  · intro s
    cases s <;> simp [allJobStatuses]

/-- Witness for the status-transition theorem: the admission-to-running step is
allowed and strictly increases the rank. -/
theorem job_status_monotone_witness :
    statusRank JobStatus.PENDING < statusRank JobStatus.RUNNING :=
  job_status_monotone.1 JobStatus.PENDING JobStatus.RUNNING rfl

/-- C6: the log level tag ranges over exactly the seven declared values, and
the log terminal renders the entries of a job log in exactly the order they
were appended — the rendered sequence projects back to the log itself, with no
reordering, dropping, or duplication. -/
theorem log_levels_and_render_order :
    (∀ logs : List LogEntry, (renderTerminal logs).map RenderedLine.entry = logs)
    ∧ (∀ lv : LogLevel,
        lv ∈ [LogLevel.info, LogLevel.thought, LogLevel.tool, LogLevel.tool_result,
              LogLevel.success, LogLevel.error, LogLevel.warning]) := by
  constructor
  · intro logs
    rw [renderTerminal, List.map_map]
    exact enumFrom_map_snd 0 logs
  · intro lv
    cases lv <;> simp

/-- C7 counterexample: a running job whose id is the empty string is in a
non-terminal status, yet the SSE effect opens no event stream, because its
guard also returns early on a falsy job id, not only on a terminal status. -/
theorem stream_stop_counterexample :
    isTerminalStatus (Job.mk "" "https://r" JobStatus.RUNNING [] "t0").status = false
    ∧ sseEffectOpens (some (Job.mk "" "https://r" JobStatus.RUNNING [] "t0")) = false := by
  constructor
  · rfl
  · simp [sseEffectOpens]

/-- C7 (amended): once the fetched status is SUCCESS or FAILED no poll is
scheduled, no stream is opened, and the fetch callback reports stop; for a job
in a non-terminal status polling continues and the fetch callback reports
continue, and the stream is opened provided the job id is non-empty (the SSE
guard also returns early on a falsy job id); with no active job neither effect
runs. -/
theorem stream_stops_at_terminal (j : Job) :
    (isTerminalStatus j.status = true →
      pollEffectActive (some j) = false
      ∧ sseEffectOpens (some j) = false
      ∧ fetchShouldContinue true j.status = false)
    ∧ (isTerminalStatus j.status = false →
      pollEffectActive (some j) = true
      ∧ fetchShouldContinue true j.status = true
      ∧ (j.job_id ≠ "" → sseEffectOpens (some j) = true))
    ∧ pollEffectActive none = false
    ∧ sseEffectOpens none = false := by
  refine ⟨fun h => ⟨?_, ?_, ?_⟩, fun h => ⟨?_, ?_, fun hne => ?_⟩, rfl, rfl⟩
  · simp [pollEffectActive, h]
  · simp [sseEffectOpens, h]
  · simp [fetchShouldContinue, h]
  · simp [pollEffectActive, h]
  · simp [fetchShouldContinue, h]
  · simp [sseEffectOpens, h, hne]

/-- Witness for the amended stream-termination theorem at a successful job and
at a running job with a non-empty id. -/
theorem stream_stops_at_terminal_witness :
    pollEffectActive (some (Job.mk "j1" "https://r" JobStatus.SUCCESS [] "t0")) = false
    ∧ sseEffectOpens (some (Job.mk "j2" "https://r" JobStatus.RUNNING [] "t0")) = true :=
  ⟨((stream_stops_at_terminal (Job.mk "j1" "https://r" JobStatus.SUCCESS [] "t0")).1 rfl).1,
   ((stream_stops_at_terminal (Job.mk "j2" "https://r" JobStatus.RUNNING [] "t0")).2.1
      rfl).2.2 (by decide)⟩

/-- C8: admission of an execution request yields exactly one job descriptor
per submitted story, each holding an assigned job id and an initial status in
the set of PENDING and QUEUED, and the assigned ids are pairwise distinct so
every descriptor can be polled immediately. -/
theorem admission_descriptor_per_story (nextId : Nat) (req : ExecutionRequest) :
    (admission nextId req).length = req.stories.length
    ∧ (∀ d ∈ admission nextId req,
        d.status = JobStatus.PENDING ∨ d.status = JobStatus.QUEUED)
    ∧ ((admission nextId req).map JobDescriptor.job_id).Nodup := by
  refine ⟨?_, ?_, ?_⟩
  · simp [admission]
  · intro d hd
    simp [admission] at hd
    obtain ⟨i, _, rfl⟩ := hd
    exact Or.inl rfl
  · have hmap : (admission nextId req).map JobDescriptor.job_id
        = (List.range req.stories.length).map (fun i => nextId + i) := by
      simp [admission, List.map_map]
    rw [hmap]
    exact (List.nodup_range _).map (fun a b hab => by omega)

/-- Witness for the admission theorem on a concrete two-story request. -/
theorem admission_descriptor_per_story_witness :
    (admission 7 (ExecutionRequest.mk "https://r"
        [StoryPayload.mk "t1" "S1" none [], StoryPayload.mk "t2" "S2" none []]
        none none)).length = 2
    ∧ ((JobDescriptor.mk 7 JobStatus.PENDING).status = JobStatus.PENDING
        ∨ (JobDescriptor.mk 7 JobStatus.PENDING).status = JobStatus.QUEUED) :=
  ⟨(admission_descriptor_per_story 7 (ExecutionRequest.mk "https://r"
      [StoryPayload.mk "t1" "S1" none [], StoryPayload.mk "t2" "S2" none []]
      none none)).1,
   (admission_descriptor_per_story 7 (ExecutionRequest.mk "https://r"
      [StoryPayload.mk "t1" "S1" none [], StoryPayload.mk "t2" "S2" none []]
      none none)).2.1 (JobDescriptor.mk 7 JobStatus.PENDING) (by decide)⟩

/-- Helper: the onmessage update keeps the list unchanged exactly when some
present entry shares timestamp and message with the incoming one. -/
theorem onStreamMessage_of_any_true (logs : List LogEntry) (e : LogEntry)
    (h : logs.any (logDuplicates e) = true) : onStreamMessage logs e = logs := by
  simp [onStreamMessage, h]

/-- Helper: an entry is its own duplicate under the timestamp-and-message
test. -/
theorem logDuplicates_self (e : LogEntry) : logDuplicates e e = true := by
  simp [logDuplicates]

/-- C9: the streamed-log append handler returns the list unchanged when an
entry with the same timestamp and message is already present, and otherwise
appends the incoming entry at the end, leaving every existing entry and its
position untouched; applying the handler twice with the same entry equals
applying it once; and a second, possibly distinct entry sharing timestamp and
message with an already-applied one is absorbed. -/
theorem stream_append_idempotent (logs : List LogEntry) (e : LogEntry) :
    (logs.any (logDuplicates e) = true → onStreamMessage logs e = logs)
    ∧ (logs.any (logDuplicates e) = false → onStreamMessage logs e = logs ++ [e])
    ∧ onStreamMessage (onStreamMessage logs e) e = onStreamMessage logs e
    ∧ (∀ e2, e2.timestamp = e.timestamp → e2.message = e.message →
        onStreamMessage (onStreamMessage logs e) e2 = onStreamMessage logs e) := by
  have habsorb : ∀ e2, e2.timestamp = e.timestamp → e2.message = e.message →
      onStreamMessage (onStreamMessage logs e) e2 = onStreamMessage logs e := by
    intro e2 ht hm
    have hdup : logDuplicates e2 = logDuplicates e := by
      funext l
      simp [logDuplicates, ht, hm]
    have hany : (onStreamMessage logs e).any (logDuplicates e2) = true := by
      rw [hdup]
      by_cases h : logs.any (logDuplicates e) = true
      · simp [onStreamMessage, h]
      · have h' : logs.any (logDuplicates e) = false := by simpa using h
        simp [onStreamMessage, h', logDuplicates_self]
    exact onStreamMessage_of_any_true (onStreamMessage logs e) e2 hany
  refine ⟨?_, ?_, habsorb e rfl rfl, habsorb⟩
  · intro h
    exact onStreamMessage_of_any_true logs e h
  · intro h
    simp [onStreamMessage, h]

/-- Witness for the streamed-log append theorem: on an empty log the incoming
entry is appended at the end. -/
theorem stream_append_idempotent_witness :
    onStreamMessage [] (LogEntry.mk "t1" none none "hello" none)
      = [] ++ [LogEntry.mk "t1" none none "hello" none] :=
  (stream_append_idempotent [] (LogEntry.mk "t1" none none "hello" none)).2.1 rfl

/-- C10: the execution form dispatches nothing when the repository URL or the
story title is empty; otherwise it dispatches exactly one story whose
acceptance criteria are exactly the entered rows whose trimmed value is
non-empty, in entry order — blank rows are dropped silently, so the dispatched
list may be empty. -/
theorem form_submit_filters_blank_criteria (storyId repoUrl title description : String)
    (criteria : List String) (useMock : Bool) :
    ((repoUrl = "" ∨ title = "") →
      handleSubmit storyId repoUrl title description criteria useMock = none)
    ∧ (repoUrl ≠ "" → title ≠ "" →
      handleSubmit storyId repoUrl title description criteria useMock
        = some
          { repo_url := repoUrl
          , stories :=
              [{ title := title
               , story_id := storyId
               , description := some description
               , acceptance_criteria := criteria.filter (fun c => c.trim != "") }]
          , base_branch := none
          , use_mock := some useMock }) := by
  constructor
  · intro h
    rcases h with h | h <;> simp [handleSubmit, h]
  · intro h1 h2
    simp [handleSubmit, h1, h2]

/-- Witness for the form-submission theorem: blank criterion rows are dropped
and the non-blank row is kept. -/
theorem form_submit_filters_blank_criteria_witness :
    handleSubmit "S1" "https://r" "t" "d" ["", "  ", "a c"] true
      = some
        { repo_url := "https://r"
        , stories :=
            [{ title := "t"
             , story_id := "S1"
             , description := some "d"
             , acceptance_criteria := ["", "  ", "a c"].filter (fun c => c.trim != "") }]
        , base_branch := none
        , use_mock := some true } :=
  (form_submit_filters_blank_criteria "S1" "https://r" "t" "d" ["", "  ", "a c"] true).2
    (by decide) (by decide)

end Ada
